import Mathlib

/-!
Verification of the Dynamic-Triage-Bracelet repository: the heart-rate / HRV
estimation pipeline over serial-fed ring buffers (`ReadPPGData.py`,
`ReadSensorData.py`) and the dashboard login check (`app.py`).

Modelling conventions:
* Python floats are modelled by `ℚ`, so every step of the pipeline is
  executable; the two square roots taken by the HRV routine are applied last,
  over `ℝ`.
* The float NaN that `np.mean` produces on an empty slice is modelled by
  `Option`: `none` is NaN.
* `scipy.signal.find_peaks` is modelled from SciPy's implementation
  (`_local_maxima_1d`, `_select_by_property`, `_select_by_peak_distance`),
  since the detected peak set is exactly what the claims are about.
-/

/-- `np.mean` of a list.  All call sites below pass a nonempty list except the
RMSSD numerator, where the empty case (float NaN) is handled explicitly. -/
def np_mean (l : List ℚ) : ℚ := l.sum / l.length

/-- `np.diff`: successive differences `l[i+1] - l[i]`. -/
def np_diff (l : List ℚ) : List ℚ := List.zipWith (fun a b => a - b) (l.drop 1) l

/-- Population variance: the radicand of `np.std` (numpy default `ddof=0`). -/
def np_var (l : List ℚ) : ℚ := np_mean (l.map (fun x => (x - np_mean l) ^ 2))

/-- End of the plateau opened at index `i`: the first index `j > i` with
`j = x.length - 1` or `x[j] ≠ x[i]`.  This is the inner while loop of SciPy's
`_local_maxima_1d` (`i_ahead`). -/
def plateau_end (x : List ℚ) (i : ℕ) : ℕ :=
  i + 1 + (((x.drop (i + 1)).take (x.length - 1 - (i + 1))).takeWhile
    (fun v => decide (v = x.getD i 0))).length

/-- SciPy `_local_maxima_1d`, as called by `scipy.signal.find_peaks`: an
interior index `i` opens a peak when `x[i-1] < x[i]`; the plateau of equal
values ends at `j = plateau_end x i`; the peak is accepted when `x[j] < x[i]`
and reported at the plateau midpoint `(i + (j-1)) / 2`.  (SciPy's loop jumps
from `i` to `j` after a hit, but no skipped index can open a peak --- inside a
plateau `x[k-1] = x[k]` and at its end `x[j-1] > x[j]` --- so scanning every
index is equivalent.) -/
def local_maxima (x : List ℚ) : List ℕ :=
  (List.range x.length).filterMap fun i =>
    if 1 ≤ i ∧ i + 1 < x.length ∧ x.getD (i - 1) 0 < x.getD i 0 then
      if x.getD (plateau_end x i) 0 < x.getD i 0 then
        some ((i + plateau_end x i - 1) / 2)
      else none
    else none

/-- Insertion into a list sorted by `le`. -/
def insert_by (le : ℕ → ℕ → Bool) (a : ℕ) : List ℕ → List ℕ
  | [] => [a]
  | b :: l => if le a b then a :: b :: l else b :: insert_by le a l

/-- Insertion sort by `le`. -/
def sort_by (le : ℕ → ℕ → Bool) : List ℕ → List ℕ
  | [] => []
  | a :: l => insert_by le a (sort_by le l)

/-- `np.argsort` of the priority array: the positions `0, …, n-1` sorted by
priority, ties broken by position (numpy's sort is stable at the array sizes
that occur here, where it falls back to insertion sort).  The comparison is a
linear order on positions, so any correct sort returns the same list. -/
def argsort (priority : List ℚ) : List ℕ :=
  sort_by (fun a b => decide (priority.getD a 0 < priority.getD b 0 ∨
      (priority.getD a 0 = priority.getD b 0 ∧ a ≤ b)))
    (List.range priority.length)

/-- One round of SciPy `_select_by_peak_distance`: if the peak at position `j`
is still kept, delete every other position whose peak lies strictly closer
than `d` samples.  (SciPy's two while loops walk left and right over the
ascending peak array and stop at the first gap `≥ d`, which over a sorted
array kills exactly the open ball of radius `d` around `peaks[j]`.) -/
def distance_kill (peaks : List ℕ) (d : ℕ) (keep : List Bool) (j : ℕ) : List Bool :=
  if keep.getD j false = true then
    (List.range keep.length).map fun k =>
      if k ≠ j ∧ Nat.dist (peaks.getD j 0) (peaks.getD k 0) < d then false
      else keep.getD k false
  else keep

/-- SciPy `_select_by_peak_distance`: process positions from highest priority
(peak height) down to lowest; each survivor deletes its neighbours closer
than `d`. -/
def select_by_peak_distance (peaks : List ℕ) (priority : List ℚ) (d : ℕ) : List Bool :=
  ((argsort priority).reverse).foldl (distance_kill peaks d) (List.replicate peaks.length true)

/-- Local maxima that pass the `height` filter: SciPy `_select_by_property`
with `hmin = height` keeps peaks with `x[p] ≥ height`. -/
def height_peaks (x : List ℚ) (height : ℚ) : List ℕ :=
  (local_maxima x).filter fun i => decide (height ≤ x.getD i 0)

/-- The boolean keep-mask produced by the distance filter for the
height-filtered peaks, with priority `x[p]`. -/
def peak_keep (x : List ℚ) (height : ℚ) (d : ℕ) : List Bool :=
  select_by_peak_distance (height_peaks x height)
    ((height_peaks x height).map fun i => x.getD i 0) d

/-- `scipy.signal.find_peaks(x, height=height, distance=d)`: local maxima,
filtered by height, then masked by the distance rule (`peaks[keep]`). -/
def find_peaks (x : List ℚ) (height : ℚ) (d : ℕ) : List ℕ :=
  (List.range (height_peaks x height).length).filterMap fun k =>
    if (peak_keep x height d).getD k false = true then
      some ((height_peaks x height).getD k 0)
    else none

/-- The peak-acceptance rule as the specification words it (spec §4.1 step 2):
scan the local maxima left to right, keep those whose value is `≥ height` and
whose index separation from the previously accepted peak is `≥ d`.  Stated
only to compare against `find_peaks`, which is what the code calls. -/
def spec_peaks_go (x : List ℚ) (height : ℚ) (d : ℕ) :
    List ℕ → Option ℕ → List ℕ → List ℕ
  | [], _, acc => acc.reverse
  | i :: rest, last, acc =>
    if height ≤ x.getD i 0 then
      match last with
      | none => spec_peaks_go x height d rest (some i) (i :: acc)
      | some p =>
        if d ≤ i - p then spec_peaks_go x height d rest (some i) (i :: acc)
        else spec_peaks_go x height d rest (some p) acc
    else spec_peaks_go x height d rest last acc

/-- The spec-worded greedy peak rule, run over the local maxima of `x`. -/
def spec_peaks (x : List ℚ) (height : ℚ) (d : ℕ) : List ℕ :=
  spec_peaks_go x height d (local_maxima x) none []

example : local_maxima [0, 0, 10, 0, 5, 0] = [2, 4] := by decide
example : find_peaks [0, 0, 10, 0, 5, 0] 1 2 = [2, 4] := by decide
example : find_peaks [0, 0, 10, 0, 5, 0] 1 3 = [2] := by decide

/-- Append to a `collections.deque(maxlen := maxlen)`: add on the right and
drop from the left whatever exceeds the capacity. -/
def dequeAppend {α : Type} (maxlen : ℕ) (l : List α) (v : α) : List α :=
  (l ++ [v]).drop (l.length + 1 - maxlen)

/-- `ArduinoPPGReader` (ReadPPGData.py): the fields the data path touches.
`port`, `baud_rate`, `serial_connection` and `start_time` only configure the
serial link and are not modelled. -/
structure ArduinoPPGReader where
  buffer_size : ℕ
  ppg_buffer : List ℚ
  time_buffer : List ℚ
deriving DecidableEq

/-- `ArduinoSensorReader` (ReadSensorData.py): same, plus the temperature
buffer. -/
structure ArduinoSensorReader where
  buffer_size : ℕ
  ppg_buffer : List ℚ
  temp_buffer : List ℚ
  time_buffer : List ℚ
deriving DecidableEq

/-- A serial line after `.strip()` and `.split(',')`: one entry per
comma-separated field, `some v` when the field parses as a Python float with
value `v`, `none` when `float(...)` would raise `ValueError`. -/
abbrev Line : Type := List (Option ℚ)

/-- `float(line)` for the PPG-only variant: the whole line (a single field,
so no comma) must be numeric. -/
def parse_ppg_line (line : Line) : Option ℚ :=
  match line with
  | [some v] => some v
  | _ => none

/-- One loop iteration of `ArduinoPPGReader.read_data` on a received line
(ReadPPGData.py lines 70-83): on a numeric line append the value and the
current elapsed time `now`; a `ValueError` is caught, printed and leaves the
buffers untouched. -/
def ArduinoPPGReader.read_line (s : ArduinoPPGReader) (now : ℚ) (line : Line) :
    ArduinoPPGReader :=
  match parse_ppg_line line with
  | some ppg_value =>
      { s with ppg_buffer := dequeAppend s.buffer_size s.ppg_buffer ppg_value,
               time_buffer := dequeAppend s.buffer_size s.time_buffer now }
  | none => s

/-- `ArduinoSensorReader.clear_buffers`. -/
def ArduinoSensorReader.clear_buffers (s : ArduinoSensorReader) : ArduinoSensorReader :=
  { s with ppg_buffer := [], temp_buffer := [], time_buffer := [] }

/-- Rounding half to even, as Python's fixed-point string formatting does on
the exact value. -/
def round_half_even (q : ℚ) : ℤ :=
  if q - ⌊q⌋ < 1 / 2 then ⌊q⌋
  else if 1 / 2 < q - ⌊q⌋ then ⌊q⌋ + 1
  else if Even ⌊q⌋ then ⌊q⌋ else ⌊q⌋ + 1

/-- The rational value denoted by the string `f"{q:.d f}"`: `q` rounded to `d`
decimal places. -/
def round_to (d : ℕ) (q : ℚ) : ℚ := (round_half_even (q * 10 ^ d) : ℚ) / 10 ^ d

/-- A written CSV file: the header fields of its first line, then one list of
numeric cell values per data row.  Each cell holds the rational value denoted
by the written decimal string (times are written with `:.3f`, temperatures
with `:.2f`, PPG values verbatim). -/
structure CSVFile where
  header : List String
  rows : List (List ℚ)
deriving DecidableEq

/-- Re-reading a produced CSV file: parsing each written decimal string gives
back exactly the rational value it denotes. -/
def read_csv (f : CSVFile) : List (List ℚ) := f.rows

/-- `ArduinoPPGReader.save_data` (ReadPPGData.py lines 93-111): `none` when
the PPG buffer is empty ("No data to save", nothing written); otherwise the
file with header `Time,PPG` and a row `f"{time_val:.3f},{ppg_val}"` per
element of `zip(time_buffer, ppg_buffer)`. -/
def ArduinoPPGReader.save_data (s : ArduinoPPGReader) : Option CSVFile :=
  if s.ppg_buffer = [] then none
  else some
    { header := ["Time", "PPG"],
      rows := (s.time_buffer.zip s.ppg_buffer).map fun tp =>
        [round_to 3 tp.1, tp.2] }

/-- `ArduinoSensorReader.save_data` (ReadSensorData.py lines 153-182): `none`
when the PPG buffer is empty; otherwise the buffers are sliced from
`start_index = min(5, len(ppg_buffer))` and the file has header
`Time,PPG,Temperature` and a row `f"{t:.3f},{p},{tm:.2f}"` per element of
`zip(time_data, ppg_data, temp_data)`. -/
def ArduinoSensorReader.save_data (s : ArduinoSensorReader) : Option CSVFile :=
  if s.ppg_buffer = [] then none
  else
    let start_index := min 5 s.ppg_buffer.length
    let time_data := s.time_buffer.drop start_index
    let ppg_data := s.ppg_buffer.drop start_index
    let temp_data := s.temp_buffer.drop start_index
    some
      { header := ["Time", "PPG", "Temperature"],
        rows := (time_data.zip (ppg_data.zip temp_data)).map fun r =>
          [round_to 3 r.1, r.2.1, round_to 2 r.2.2] }

/-- One loop iteration of `ArduinoSensorReader.read_data` on a received line
(ReadSensorData.py lines 71-97): a line of exactly two numeric fields appends
(ppg, temperature, elapsed time) to the three buffers; when that fills the
buffer to capacity the data is printed, plotted, saved to `sensor_data.csv`
and the buffers are cleared.  A wrong field count ("Invalid data format") or a
non-numeric field (`ValueError`, "Invalid data received") leaves the state
untouched.  Returns the new state and the file written, if any. -/
def ArduinoSensorReader.read_line (s : ArduinoSensorReader) (now : ℚ) (line : Line) :
    ArduinoSensorReader × Option CSVFile :=
  if line.length = 2 then
    match line.getD 0 none, line.getD 1 none with
    | some ppg_value, some temp_value =>
        let s' : ArduinoSensorReader :=
          { s with ppg_buffer := dequeAppend s.buffer_size s.ppg_buffer ppg_value,
                   temp_buffer := dequeAppend s.buffer_size s.temp_buffer temp_value,
                   time_buffer := dequeAppend s.buffer_size s.time_buffer now }
        if s'.ppg_buffer.length = s'.buffer_size then (s'.clear_buffers, s'.save_data)
        else (s', none)
    | _, _ => (s, none)
  else (s, none)

/-- The shared body of `analyze_heart_rate` (ReadPPGData.py lines 127-153 and,
verbatim, ReadSensorData.py lines 220-246): `None` below 10 samples or below
2 detected peaks, otherwise `60 / np.mean(np.diff(time_data[peaks]))`. -/
def analyze_heart_rate (ppg_buffer time_buffer : List ℚ) : Option ℚ :=
  if ppg_buffer.length < 10 then none
  else
    let peaks := find_peaks ppg_buffer (np_mean ppg_buffer) 20
    if peaks.length < 2 then none
    else
      let peak_times := peaks.map fun i => time_buffer.getD i 0
      let intervals := np_diff peak_times
      some (60 / np_mean intervals)

/-- The diagnostic printed by `analyze_heart_rate` when it returns `None`. -/
def analyze_heart_rate_failmsg (ppg_buffer : List ℚ) : Option String :=
  if ppg_buffer.length < 10 then some "Not enough data for heart rate analysis"
  else if (find_peaks ppg_buffer (np_mean ppg_buffer) 20).length < 2 then
    some "Not enough peaks detected for heart rate calculation"
  else none

/-- The guards and the two radicands of `calculate_hrv` (all of the
computation except the outer `np.std`/`np.sqrt` square roots): `none` below
10 samples or below 2 peaks; otherwise the pair of the SDNN radicand
(population variance of the RR intervals in ms) and the RMSSD radicand
(`np.mean(np.diff(rr_intervals) ** 2)`), the latter `none` when
`np.diff(rr_intervals)` is empty, where the float `np.mean` is NaN. -/
def hrv_radicands (ppg_buffer time_buffer : List ℚ) : Option (ℚ × Option ℚ) :=
  if ppg_buffer.length < 10 then none
  else
    let peaks := find_peaks ppg_buffer (np_mean ppg_buffer) 20
    if peaks.length < 2 then none
    else
      let peak_times := peaks.map fun i => time_buffer.getD i 0
      let rr_intervals := (np_diff peak_times).map fun x => x * 1000
      let sq_diffs := (np_diff rr_intervals).map fun x => x ^ 2
      some (np_var rr_intervals, if sq_diffs = [] then none else some (np_mean sq_diffs))

/-- The value returned by `calculate_hrv`: the dict
`{"SDNN": sdnn, "RMSSD": rmssd}`.  `rmssd = none` models a float NaN. -/
structure HRV where
  sdnn : ℝ
  rmssd : Option ℝ

/-- The shared body of `calculate_hrv` (ReadPPGData.py lines 155-177 and,
verbatim, ReadSensorData.py lines 248-270): `sdnn = np.std(rr_intervals)` and
`rmssd = np.sqrt(np.mean(np.diff(rr_intervals) ** 2))`, i.e. the square roots
of the radicands computed by `hrv_radicands`.  (`rr_intervals` is nonempty
whenever the guards pass, so only the RMSSD radicand can be the NaN case.) -/
noncomputable def calculate_hrv (ppg_buffer time_buffer : List ℚ) : Option HRV :=
  (hrv_radicands ppg_buffer time_buffer).map fun p =>
    { sdnn := Real.sqrt (p.1 : ℝ), rmssd := p.2.map fun q => Real.sqrt (q : ℝ) }

/-- The diagnostic printed by `calculate_hrv` when it returns `None`. -/
def calculate_hrv_failmsg (ppg_buffer : List ℚ) : Option String :=
  if ppg_buffer.length < 10 then some "Not enough data for HRV analysis"
  else if (find_peaks ppg_buffer (np_mean ppg_buffer) 20).length < 2 then
    some "Not enough peaks detected for HRV calculation"
  else none

/-- `analyze_heart_rate` as a state transformer: the method body only reads
`self.ppg_buffer` and `self.time_buffer` and assigns no field of `self`, so
the post-state is the pre-state. -/
def ArduinoPPGReader.analyze_heart_rate_st (s : ArduinoPPGReader) :
    ArduinoPPGReader × Option ℚ :=
  (s, analyze_heart_rate s.ppg_buffer s.time_buffer)

/-- `calculate_hrv` as a state transformer on `ArduinoPPGReader`; no field of
`self` is assigned. -/
noncomputable def ArduinoPPGReader.calculate_hrv_st (s : ArduinoPPGReader) :
    ArduinoPPGReader × Option HRV :=
  (s, calculate_hrv s.ppg_buffer s.time_buffer)

/-- `analyze_heart_rate` as a state transformer on `ArduinoSensorReader`; no
field of `self` is assigned. -/
def ArduinoSensorReader.analyze_heart_rate_st (s : ArduinoSensorReader) :
    ArduinoSensorReader × Option ℚ :=
  (s, analyze_heart_rate s.ppg_buffer s.time_buffer)

/-- `calculate_hrv` as a state transformer on `ArduinoSensorReader`; no field
of `self` is assigned. -/
noncomputable def ArduinoSensorReader.calculate_hrv_st (s : ArduinoSensorReader) :
    ArduinoSensorReader × Option HRV :=
  (s, calculate_hrv s.ppg_buffer s.time_buffer)

/-- The buffer well-formedness invariant of `ArduinoPPGReader`: the parallel
buffers have equal lengths, bounded by the configured capacity. -/
def ArduinoPPGReader.Inv (s : ArduinoPPGReader) : Prop :=
  s.time_buffer.length = s.ppg_buffer.length ∧ s.ppg_buffer.length ≤ s.buffer_size

/-- The buffer well-formedness invariant of `ArduinoSensorReader`. -/
def ArduinoSensorReader.Inv (s : ArduinoSensorReader) : Prop :=
  s.time_buffer.length = s.ppg_buffer.length ∧
  s.temp_buffer.length = s.ppg_buffer.length ∧
  s.ppg_buffer.length ≤ s.buffer_size

instance (s : ArduinoPPGReader) : Decidable s.Inv := by unfold ArduinoPPGReader.Inv; infer_instance
instance (s : ArduinoSensorReader) : Decidable s.Inv := by unfold ArduinoSensorReader.Inv; infer_instance

/-- A doctor record of the `DOCTORS` dict in app.py. -/
structure Doctor where
  password : String
  name : String
  department : String
deriving DecidableEq

/-- The `DOCTORS` dict (app.py lines 37-53), as an association list with the
insertion order of the literal; `h` is the `hashlib.sha256(...).hexdigest()`
function, kept abstract. -/
def DOCTORS (h : String → String) : List (String × Doctor) :=
  [("admin", ⟨h "password123", "Dr. Admin", "System Administration"⟩),
   ("johndoe", ⟨h "doctor456", "Dr. John Doe", "Emergency Medicine"⟩),
   ("janesmit", ⟨h "nurse789", "Dr. Jane Smith", "Intensive Care"⟩)]

/-- `authenticate` (app.py lines 56-63): hash the supplied password; return
`DOCTORS[username]` when the username is a key and the stored hash equals the
computed one, else `None`. -/
def authenticate (h : String → String) (username password : String) : Option Doctor :=
  let hashed_password := h password
  match (DOCTORS h).lookup username with
  | some rec => if rec.password = hashed_password then some rec else none
  | none => none

/-! Concrete buffer states used to witness or refute the claims. -/

/-- A flat signal of `n` samples with isolated spikes of height 10 at the
given indices. -/
def spike_list (n : ℕ) (idxs : List ℕ) : List ℚ :=
  (List.range n).map fun i => if i ∈ idxs then 10 else 0

/-- Timestamps `0, 1, 2, …` (one sample per second). -/
def ramp_list (n : ℕ) : List ℚ := (List.range n).map fun i => (i : ℚ)

def c1_ppg : List ℚ := spike_list 30 [3, 25]

def c1_time : List ℚ := ramp_list 30

/-- 35 samples with local maxima of heights 10, 20, 10 at indices 2, 16, 30:
the tallest is closer than 20 samples to both others, while the outer two are
28 apart. -/
def c3_x : List ℚ :=
  (List.range 35).map fun i => if i = 16 then 20 else if i = 2 ∨ i = 30 then 10 else 0

/-- A buffer on which the detector accepts exactly 2 peaks (at indices 3 and
25), a perfectly regular train of one interval. -/
def c4_ppg : List ℚ := spike_list 30 [3, 25]

def c4_time : List ℚ := ramp_list 30

/-- A buffer with 3 accepted peaks at indices 2, 22, 42: a perfectly regular
train with two equal intervals. -/
def c4w_ppg : List ℚ := spike_list 45 [2, 22, 42]

def c4w_time : List ℚ := ramp_list 45

def c5_sensor : ArduinoSensorReader :=
  ⟨200, [1, 2, 3, 4, 5, 6], [30, 30, 30, 30, 30, 30], [0, 1, 2, 3, 4, 5]⟩

def c5_ppgreader : ArduinoPPGReader := ⟨100, [7, 8], [0, 1]⟩

def c6_sensor : ArduinoSensorReader :=
  ⟨200, [1, 2, 3, 4, 5, 6, 7], [36, 36, 36, 36, 36, 36, 36], [0, 1, 2, 3, 4, 5, 6]⟩

def c6_ppgreader : ArduinoPPGReader := ⟨100, [5], [1 / 3]⟩

def c7_ppgreader : ArduinoPPGReader := ⟨100, [1, 2], [0, 1]⟩

def c7_sensor : ArduinoSensorReader := ⟨200, [1], [36], [0]⟩

def c8_ppgreader : ArduinoPPGReader := ⟨3, [1, 2, 3], [0, 1, 2]⟩

def c8_sensor : ArduinoSensorReader := ⟨4, [1, 2], [36, 36], [0, 1]⟩

/-- A stand-in for the abstract hex-digest function in the login witness. -/
def hash0 (s : String) : String := s ++ "#digest"

def admin_doc : Doctor := ⟨hash0 "password123", "Dr. Admin", "System Administration"⟩

/-! Helper lemmas. -/

theorem getD_lt {α : Type} (l : List α) (k : ℕ) (d : α) (h : k < l.length) :
    l.getD k d = l[k] := by
  rw [List.getD_eq_getElem?_getD, List.getElem?_eq_getElem h, Option.getD_some]

theorem getD_range_map (f : ℕ → Bool) (n k : ℕ) :
    ((List.range n).map f).getD k false = if k < n then f k else false := by
  rcases Nat.lt_or_ge k n with h | h
  · rw [List.getD_eq_getElem?_getD, List.getElem?_map, List.getElem?_range h,
      Option.map_some', Option.getD_some, if_pos h]
  · have hn : (List.range n)[k]? = none := by
      rw [List.getElem?_eq_none]
      simpa using h
    rw [List.getD_eq_getElem?_getD, List.getElem?_map, hn, Option.map_none',
      Option.getD_none, if_neg (Nat.not_lt.mpr h)]

theorem distance_kill_mono (peaks : List ℕ) (d : ℕ) (keep : List Bool) (j k : ℕ)
    (h : (distance_kill peaks d keep j).getD k false = true) :
    keep.getD k false = true := by
  unfold distance_kill at h
  split at h
  · rw [getD_range_map] at h
    split at h
    · split at h
      · exact absurd h (by simp)
      · exact h
    · exact absurd h (by simp)
  · exact h

theorem foldl_kill_mono (peaks : List ℕ) (d : ℕ) (order : List ℕ) (keep : List Bool) (k : ℕ)
    (h : (order.foldl (distance_kill peaks d) keep).getD k false = true) :
    keep.getD k false = true := by
  induction order generalizing keep with
  | nil => exact h
  | cons o os ih =>
    rw [List.foldl_cons] at h
    exact distance_kill_mono peaks d keep o k (ih (distance_kill peaks d keep o) h)

theorem distance_kill_kills (peaks : List ℕ) (d : ℕ) (keep : List Bool) (j k : ℕ)
    (hj : keep.getD j false = true) (hk : k ≠ j)
    (hd : Nat.dist (peaks.getD j 0) (peaks.getD k 0) < d) :
    (distance_kill peaks d keep j).getD k false = false := by
  unfold distance_kill
  rw [if_pos hj, getD_range_map]
  split
  · rw [if_pos ⟨hk, hd⟩]
  · rfl

/-- A position that survives the whole distance-filter pass has, at its own
processing step, killed every other position whose peak is closer than `d`. -/
theorem foldl_kill_sep (peaks : List ℕ) (d : ℕ) (order : List ℕ) (keep : List Bool) (j : ℕ)
    (hj : j ∈ order)
    (hjt : (order.foldl (distance_kill peaks d) keep).getD j false = true) :
    ∀ k, k ≠ j → Nat.dist (peaks.getD j 0) (peaks.getD k 0) < d →
      (order.foldl (distance_kill peaks d) keep).getD k false = false := by
  induction order generalizing keep with
  | nil => cases hj
  | cons o os ih =>
    intro k hk hd
    rw [List.foldl_cons] at hjt ⊢
    rcases List.mem_cons.mp hj with rfl | hmem
    · by_cases hjk : keep.getD j false = true
      · have hkill : (distance_kill peaks d keep j).getD k false = false :=
          distance_kill_kills peaks d keep j k hjk hk hd
        cases hfin : (os.foldl (distance_kill peaks d) (distance_kill peaks d keep j)).getD k false
        · rfl
        · exact absurd (foldl_kill_mono peaks d os _ k hfin) (by rw [hkill]; simp)
      · have h1 : (distance_kill peaks d keep j).getD j false = true :=
          foldl_kill_mono peaks d os _ j hjt
        exact absurd (distance_kill_mono peaks d keep j j h1) hjk
    · exact ih (distance_kill peaks d keep o) hmem hjt k hk hd

theorem mem_insert_by (le : ℕ → ℕ → Bool) (a c : ℕ) (l : List ℕ) :
    c ∈ insert_by le a l ↔ c = a ∨ c ∈ l := by
  induction l with
  | nil => simp [insert_by]
  | cons b bs ih =>
    unfold insert_by
    split
    · simp
    · rw [List.mem_cons, ih, List.mem_cons]
      tauto

theorem mem_sort_by (le : ℕ → ℕ → Bool) (c : ℕ) (l : List ℕ) :
    c ∈ sort_by le l ↔ c ∈ l := by
  induction l with
  | nil => simp [sort_by]
  | cons a as ih => rw [sort_by, mem_insert_by, ih, List.mem_cons]

theorem mem_argsort (priority : List ℚ) (k : ℕ) (h : k < priority.length) :
    k ∈ argsort priority := by
  unfold argsort
  rw [mem_sort_by]
  exact List.mem_range.mpr h

theorem mem_find_peaks_iff (x : List ℚ) (height : ℚ) (d : ℕ) (i : ℕ) :
    i ∈ find_peaks x height d ↔
      ∃ k, k < (height_peaks x height).length ∧
        (peak_keep x height d).getD k false = true ∧ (height_peaks x height).getD k 0 = i := by
  unfold find_peaks
  simp only [List.mem_filterMap, List.mem_range]
  constructor
  · rintro ⟨k, hk, hif⟩
    split at hif
    · exact ⟨k, hk, by assumption, Option.some_inj.mp hif⟩
    · exact absurd hif (by simp)
  · rintro ⟨k, hk, hkeep, rfl⟩
    exact ⟨k, hk, by rw [if_pos hkeep]⟩

theorem find_peaks_sep (x : List ℚ) (height : ℚ) (d : ℕ) (i j : ℕ)
    (hi : i ∈ find_peaks x height d) (hj : j ∈ find_peaks x height d) (hij : i ≠ j) :
    d ≤ Nat.dist i j := by
  rcases (mem_find_peaks_iff x height d i).mp hi with ⟨k1, hk1, hkeep1, hi'⟩
  rcases (mem_find_peaks_iff x height d j).mp hj with ⟨k2, hk2, hkeep2, hj'⟩
  have hkk : k2 ≠ k1 := by
    intro h
    exact hij (by rw [← hi', ← hj', h])
  by_contra hlt
  push_neg at hlt
  have hplen : ((height_peaks x height).map fun p => x.getD p 0).length
      = (height_peaks x height).length := List.length_map _ _
  have horder : k1 ∈ (argsort ((height_peaks x height).map fun p => x.getD p 0)).reverse :=
    List.mem_reverse.mpr (mem_argsort _ k1 (by rw [hplen]; exact hk1))
  have hkeep1' := hkeep1
  have hkeep2' := hkeep2
  unfold peak_keep select_by_peak_distance at hkeep1' hkeep2'
  have hdist : Nat.dist ((height_peaks x height).getD k1 0) ((height_peaks x height).getD k2 0)
      < d := by
    rw [hi', hj']
    exact hlt
  have := foldl_kill_sep (height_peaks x height) d _ _ k1 horder hkeep1' k2 hkk hdist
  rw [this] at hkeep2'
  exact absurd hkeep2' (by simp)

theorem find_peaks_subset (x : List ℚ) (height : ℚ) (d : ℕ) (i : ℕ)
    (hi : i ∈ find_peaks x height d) :
    i ∈ local_maxima x ∧ height ≤ x.getD i 0 := by
  rcases (mem_find_peaks_iff x height d i).mp hi with ⟨k, hk, _, hi'⟩
  have hmem : i ∈ height_peaks x height := by
    rw [← hi', getD_lt _ _ _ hk]
    exact List.getElem_mem _
  unfold height_peaks at hmem
  rcases List.mem_filter.mp hmem with ⟨h1, h2⟩
  exact ⟨h1, of_decide_eq_true h2⟩

theorem list_sum_const (l : List ℚ) (c : ℚ) (h : ∀ y ∈ l, y = c) :
    l.sum = c * l.length := by
  induction l with
  | nil => simp
  | cons a as ih =>
    have ha : a = c := h a (by simp)
    have has : as.sum = c * as.length := ih fun y hy => h y (by simp [hy])
    rw [List.sum_cons, ha, has, List.length_cons]
    push_cast
    ring

theorem np_mean_const (l : List ℚ) (c : ℚ) (hne : l ≠ []) (h : ∀ y ∈ l, y = c) :
    np_mean l = c := by
  have hlen : (l.length : ℚ) ≠ 0 := by
    have : l.length ≠ 0 := fun h0 => hne (List.length_eq_zero.mp h0)
    exact_mod_cast this
  unfold np_mean
  rw [list_sum_const l c h, mul_div_assoc, div_self hlen, mul_one]

theorem np_mean_zero (l : List ℚ) (h : ∀ y ∈ l, y = 0) : np_mean l = 0 := by
  unfold np_mean
  rw [list_sum_const l 0 h, zero_mul, zero_div]

theorem np_var_const (l : List ℚ) (c : ℚ) (hne : l ≠ []) (h : ∀ y ∈ l, y = c) :
    np_var l = 0 := by
  unfold np_var
  apply np_mean_zero
  intro y hy
  rcases List.mem_map.mp hy with ⟨a, ha, rfl⟩
  rw [h a ha, np_mean_const l c hne h, sub_self]
  ring

theorem mem_zipWith_sub (x : ℚ) : ∀ (l1 l2 : List ℚ),
    x ∈ List.zipWith (fun a b => a - b) l1 l2 → ∃ a ∈ l1, ∃ b ∈ l2, x = a - b := by
  intro l1
  induction l1 with
  | nil => intro l2 h; simp at h
  | cons a as ih =>
    intro l2 h
    cases l2 with
    | nil => simp at h
    | cons b bs =>
      rcases List.mem_cons.mp h with h1 | h2
      · exact ⟨a, by simp, b, by simp, h1⟩
      · rcases ih bs h2 with ⟨a', ha', b', hb', rfl⟩
        exact ⟨a', by simp [ha'], b', by simp [hb'], rfl⟩

theorem np_diff_zero_of_const (l : List ℚ) (c : ℚ) (h : ∀ y ∈ l, y = c) :
    ∀ x ∈ np_diff l, x = 0 := by
  intro x hx
  rcases mem_zipWith_sub x _ _ hx with ⟨a, ha, b, hb, rfl⟩
  rw [h a (List.drop_subset 1 l ha), h b hb, sub_self]

theorem np_diff_length (l : List ℚ) : (np_diff l).length = l.length - 1 := by
  unfold np_diff
  rw [List.length_zipWith, List.length_drop]
  omega

theorem np_diff_pair (a b : ℚ) : np_diff [a, b] = [b - a] := rfl

theorem np_mean_singleton (y : ℚ) : np_mean [y] = y := by
  simp [np_mean]

theorem round_half_even_close (q : ℚ) : |(round_half_even q : ℚ) - q| ≤ 1 / 2 := by
  have h0 : (⌊q⌋ : ℚ) ≤ q := Int.floor_le q
  have h1 : q < ⌊q⌋ + 1 := Int.lt_floor_add_one q
  unfold round_half_even
  split_ifs with ha hb hc <;> rw [abs_le] <;> constructor <;> push_cast <;> linarith

theorem round_to_close (d : ℕ) (q : ℚ) : |round_to d q - q| ≤ 1 / (2 * 10 ^ d) := by
  have hpow : (0 : ℚ) < 10 ^ d := by positivity
  have h := round_half_even_close (q * 10 ^ d)
  have heq : round_to d q - q
      = ((round_half_even (q * 10 ^ d) : ℚ) - q * 10 ^ d) / 10 ^ d := by
    unfold round_to
    field_simp
    ring
  have hsplit : (1 : ℚ) / (2 * 10 ^ d) = (1 / 2) / 10 ^ d := by
    rw [div_div]
  rw [heq, abs_div, abs_of_pos hpow, hsplit]
  gcongr

theorem dequeAppend_length {α : Type} (m : ℕ) (l : List α) (v : α) :
    (dequeAppend m l v).length = min (l.length + 1) m := by
  unfold dequeAppend
  rw [List.length_drop, List.length_append]
  simp
  omega

theorem dequeAppend_full {α : Type} (m : ℕ) (l : List α) (v : α)
    (hl : l.length = m) (hm : 1 ≤ m) :
    dequeAppend m l v = l.drop 1 ++ [v] := by
  have h1 : l.length + 1 - m = 1 := by omega
  unfold dequeAppend
  rw [h1]
  cases l with
  | nil => simp at hl; omega
  | cons a as => rfl

/-! Claim theorems. -/

set_option maxRecDepth 100000

/-- Claim C1: on a buffer state with at least 10 (PPG, time) samples in which
the peak detector (height threshold `np.mean` of the buffer, minimum distance
20) finds at least 2 peaks, `analyze_heart_rate` returns 60 divided by the
mean of the successive differences of the detected peaks' timestamps; in
particular, when exactly 2 peaks are accepted at times `t0` and `t1`, it
returns `60 / (t1 - t0)`.  (Both reader classes delegate to the same body,
`analyze_heart_rate`.) -/
theorem C1_analyze_heart_rate_formula (ppg timeb : List ℚ)
    (h10 : 10 ≤ ppg.length)
    (hp : 2 ≤ (find_peaks ppg (np_mean ppg) 20).length) :
    analyze_heart_rate ppg timeb =
      some (60 / np_mean (np_diff ((find_peaks ppg (np_mean ppg) 20).map
        fun i => timeb.getD i 0))) ∧
    ∀ i0 i1, find_peaks ppg (np_mean ppg) 20 = [i0, i1] →
      analyze_heart_rate ppg timeb = some (60 / (timeb.getD i1 0 - timeb.getD i0 0)) := by
  constructor
  · simp only [analyze_heart_rate]
    rw [if_neg (by omega), if_neg (by omega)]
  · intro i0 i1 hpe
    simp only [analyze_heart_rate]
    rw [if_neg (by omega), hpe]
    simp [np_diff_pair, np_mean_singleton]

/-- Witness for C1: 30 samples with spikes at indices 3 and 25, timestamps
`0, 1, 2, …`; both peaks are accepted and the heart rate is
`60 / (25 - 3) = 30/11` BPM. -/
theorem C1_witness : analyze_heart_rate c1_ppg c1_time = some (30 / 11) := by
  have h := (C1_analyze_heart_rate_formula c1_ppg c1_time (by with_unfolding_all decide) (by with_unfolding_all decide)).2
  rw [h 3 25 (by with_unfolding_all decide)]
  with_unfolding_all decide

/-- Claim C2: with fewer than 10 buffered samples, or with fewer than 2
detected peaks, `analyze_heart_rate` and `calculate_hrv` both return the
sentinel `None` together with a descriptive (nonempty) diagnostic message;
being total functions of the buffer contents, neither raises. -/
theorem C2_insufficient_data_returns_none (ppg timeb : List ℚ)
    (h : ppg.length < 10 ∨ (find_peaks ppg (np_mean ppg) 20).length < 2) :
    analyze_heart_rate ppg timeb = none ∧
    calculate_hrv ppg timeb = none ∧
    (∃ m, analyze_heart_rate_failmsg ppg = some m ∧ m ≠ "") ∧
    (∃ m, calculate_hrv_failmsg ppg = some m ∧ m ≠ "") := by
  by_cases h10 : ppg.length < 10
  · refine ⟨?_, ?_, ⟨"Not enough data for heart rate analysis", ?_, by with_unfolding_all decide⟩,
      ⟨"Not enough data for HRV analysis", ?_, by with_unfolding_all decide⟩⟩
    · simp [analyze_heart_rate, h10]
    · simp [calculate_hrv, hrv_radicands, h10]
    · simp [analyze_heart_rate_failmsg, h10]
    · simp [calculate_hrv_failmsg, h10]
  · have h2 : (find_peaks ppg (np_mean ppg) 20).length < 2 := by tauto
    refine ⟨?_, ?_, ⟨"Not enough peaks detected for heart rate calculation", ?_, by with_unfolding_all decide⟩,
      ⟨"Not enough peaks detected for HRV calculation", ?_, by with_unfolding_all decide⟩⟩
    · simp [analyze_heart_rate, h10, h2]
    · simp [calculate_hrv, hrv_radicands, h10, h2]
    · simp [analyze_heart_rate_failmsg, h10, h2]
    · simp [calculate_hrv_failmsg, h10, h2]

/-- Witness for C2: the empty buffer state. -/
theorem C2_witness :
    analyze_heart_rate [] [] = none ∧ calculate_hrv [] [] = none ∧
    (∃ m, analyze_heart_rate_failmsg [] = some m ∧ m ≠ "") ∧
    (∃ m, calculate_hrv_failmsg [] = some m ∧ m ≠ "") :=
  C2_insufficient_data_returns_none [] [] (Or.inl (by with_unfolding_all decide))

/-- Claim C3 counterexample: on the buffer `c3_x` (35 samples, local maxima of
heights 10, 20, 10 at indices 2, 16, 30, all at or above the mean `8/7`), the
estimator's detector keeps only the tallest peak, `[16]` — SciPy's `distance`
filter removes smaller peaks first, and 16 is closer than 20 samples to both
2 and 30 — whereas the claimed left-to-right rule ("separation from the
previous accepted peak ≥ 20") accepts `[2, 30]`.  So the set of peaks used by
the estimator is not the set the claim describes. -/
theorem C3_counterexample :
    local_maxima c3_x = [2, 16, 30] ∧
    (∀ i ∈ [2, 16, 30], np_mean c3_x ≤ c3_x.getD i 0) ∧
    find_peaks c3_x (np_mean c3_x) 20 = [16] ∧
    spec_peaks c3_x (np_mean c3_x) 20 = [2, 30] := by with_unfolding_all decide

/-- Claim C3 (amended): every peak used by the estimator is a local maximum of
the current buffer whose value is ≥ the arithmetic mean of the current buffer
(the threshold is recomputed from the buffer passed in, on every call), and
any two distinct used peaks are ≥ 20 samples apart; but the used subset is
selected by SciPy's priority rule — peaks are processed from tallest to
smallest and each survivor discards every other peak closer than 20 samples —
not by a left-to-right scan against the previously accepted peak. -/
theorem C3_amended_peak_set (ppg : List ℚ) (i : ℕ)
    (hi : i ∈ find_peaks ppg (np_mean ppg) 20) :
    (i ∈ local_maxima ppg ∧ np_mean ppg ≤ ppg.getD i 0) ∧
    ∀ j ∈ find_peaks ppg (np_mean ppg) 20, i ≠ j → 20 ≤ Nat.dist i j :=
  ⟨find_peaks_subset ppg (np_mean ppg) 20 i hi,
    fun j hj hij => find_peaks_sep ppg (np_mean ppg) 20 i j hi hj hij⟩

/-- Witness for C3: the kept peak 16 of `c3_x` is a qualifying local maximum
and is ≥ 20 samples from every other kept peak. -/
theorem C3_witness :
    (16 ∈ local_maxima c3_x ∧ np_mean c3_x ≤ c3_x.getD 16 0) ∧
    ∀ j ∈ find_peaks c3_x (np_mean c3_x) 20, 16 ≠ j → 20 ≤ Nat.dist 16 j :=
  C3_amended_peak_set c3_x 16 (by with_unfolding_all decide)

/-- Claim C4 counterexample: on `c4_ppg` the detector accepts exactly 2 peaks
(a perfectly regular train), so `rr_intervals` has a single element,
`np.diff(rr_intervals)` is empty and `np.mean` of the empty slice is float
NaN: `calculate_hrv` returns SDNN = 0 but RMSSD = NaN (modelled `none`),
not RMSSD = 0 as claimed. -/
theorem C4_counterexample :
    (find_peaks c4_ppg (np_mean c4_ppg) 20).length = 2 ∧
    calculate_hrv c4_ppg c4_time = some ⟨0, none⟩ ∧
    (calculate_hrv c4_ppg c4_time).map HRV.rmssd ≠ some (some 0) := by
  have hrad : hrv_radicands c4_ppg c4_time = some (0, none) := by
    with_unfolding_all decide
  refine ⟨by with_unfolding_all decide, ?_, ?_⟩
  · simp [calculate_hrv, hrad, Real.sqrt_zero]
  · simp [calculate_hrv, hrad]

/-- Claim C4 (amended): on a buffer state with at least 10 samples whose
detected peaks number at least 3 and form a perfectly regular train (all
inter-beat intervals equal), `calculate_hrv` returns SDNN = 0 and RMSSD = 0,
SDNN being the population standard deviation of the intervals in milliseconds
and RMSSD the square root of the mean of the squared successive differences
of those intervals.  (With exactly 2 peaks SDNN is still 0 but the RMSSD mean
runs over an empty slice and is float NaN, as the counterexample shows.) -/
theorem C4_regular_train_hrv (ppg timeb : List ℚ) (c : ℚ)
    (h10 : 10 ≤ ppg.length)
    (hp : 3 ≤ (find_peaks ppg (np_mean ppg) 20).length)
    (hreg : ∀ x ∈ np_diff ((find_peaks ppg (np_mean ppg) 20).map fun i => timeb.getD i 0),
      x = c) :
    calculate_hrv ppg timeb = some ⟨0, some 0⟩ := by
  have hrad : hrv_radicands ppg timeb = some (0, some 0) := by
    simp only [hrv_radicands]
    rw [if_neg (by omega), if_neg (by omega)]
    have hrrc : ∀ y ∈ (np_diff ((find_peaks ppg (np_mean ppg) 20).map
        fun i => timeb.getD i 0)).map (fun x => x * 1000), y = c * 1000 := by
      intro y hy
      rcases List.mem_map.mp hy with ⟨a, ha, rfl⟩
      rw [hreg a ha]
    have hrrlen : ((np_diff ((find_peaks ppg (np_mean ppg) 20).map
        fun i => timeb.getD i 0)).map (fun x => x * 1000)).length
        = (find_peaks ppg (np_mean ppg) 20).length - 1 := by
      rw [List.length_map, np_diff_length, List.length_map]
    have hrrne : (np_diff ((find_peaks ppg (np_mean ppg) 20).map
        fun i => timeb.getD i 0)).map (fun x => x * 1000) ≠ [] := by
      intro h0
      rw [h0] at hrrlen
      simp at hrrlen
      omega
    have hvar := np_var_const _ (c * 1000) hrrne hrrc
    have hdiff0 := np_diff_zero_of_const _ (c * 1000) hrrc
    have hsqne : ((np_diff ((np_diff ((find_peaks ppg (np_mean ppg) 20).map
        fun i => timeb.getD i 0)).map (fun x => x * 1000))).map fun x => x ^ 2) ≠ [] := by
      intro h0
      have hl := congrArg List.length h0
      rw [List.length_map, np_diff_length, hrrlen] at hl
      simp at hl
      omega
    have hsq0 : np_mean ((np_diff ((np_diff ((find_peaks ppg (np_mean ppg) 20).map
        fun i => timeb.getD i 0)).map (fun x => x * 1000))).map fun x => x ^ 2) = 0 := by
      apply np_mean_zero
      intro y hy
      rcases List.mem_map.mp hy with ⟨a, ha, rfl⟩
      rw [hdiff0 a ha]
      ring
    rw [hvar, if_neg hsqne, hsq0]
  simp [calculate_hrv, hrad, Real.sqrt_zero]

/-- Witness for C4: 45 samples with spikes at indices 2, 22, 42, timestamps
`0, 1, 2, …`: three accepted peaks with both inter-beat intervals equal to
20 s, and both HRV statistics are 0. -/
theorem C4_witness : calculate_hrv c4w_ppg c4w_time = some ⟨0, some 0⟩ :=
  C4_regular_train_hrv c4w_ppg c4w_time 20 (by with_unfolding_all decide)
    (by with_unfolding_all decide) (by with_unfolding_all decide)

/-- Shape of the file written by the PPG variant's `save_data`: header
`Time,PPG`, one row per buffered sample, times rounded to 3 decimals, PPG
values verbatim. -/
theorem ppg_save_spec (s : ArduinoPPGReader)
    (hne : s.ppg_buffer ≠ []) (hlen : s.time_buffer.length = s.ppg_buffer.length) :
    ∃ f, s.save_data = some f ∧ f.header = ["Time", "PPG"] ∧
      f.rows.length = s.ppg_buffer.length ∧
      ∀ k, k < f.rows.length →
        f.rows.getD k [] = [round_to 3 (s.time_buffer.getD k 0), s.ppg_buffer.getD k 0] := by
  have hf : s.save_data = some
      { header := ["Time", "PPG"],
        rows := (s.time_buffer.zip s.ppg_buffer).map fun tp => [round_to 3 tp.1, tp.2] } := by
    simp [ArduinoPPGReader.save_data, hne]
  have hflen : ((s.time_buffer.zip s.ppg_buffer).map
      fun tp => ([round_to 3 tp.1, tp.2] : List ℚ)).length = s.ppg_buffer.length := by
    rw [List.length_map, List.length_zip, hlen, Nat.min_self]
  refine ⟨_, hf, rfl, hflen, ?_⟩
  intro k hk
  rw [hflen] at hk
  have hkt : k < s.time_buffer.length := by omega
  have hkz : k < (s.time_buffer.zip s.ppg_buffer).length := by
    rw [List.length_zip]
    omega
  have hkm : k < ((s.time_buffer.zip s.ppg_buffer).map
      fun tp => ([round_to 3 tp.1, tp.2] : List ℚ)).length := by
    rw [List.length_map]
    exact hkz
  rw [getD_lt _ _ _ hkm, List.getElem_map, List.getElem_zip,
    getD_lt _ _ _ hkt, getD_lt _ _ _ hk]

/-- Shape of the file written by the sensor variant's `save_data`: header
`Time,PPG,Temperature`, the first `min(5, N)` samples dropped, then one row
per remaining sample, times rounded to 3 decimals, PPG verbatim, temperatures
rounded to 2 decimals. -/
theorem sensor_save_spec (s2 : ArduinoSensorReader)
    (hne2 : s2.ppg_buffer ≠ [])
    (hlen2 : s2.time_buffer.length = s2.ppg_buffer.length)
    (hlen2' : s2.temp_buffer.length = s2.ppg_buffer.length) :
    ∃ g, s2.save_data = some g ∧ g.header = ["Time", "PPG", "Temperature"] ∧
      g.rows.length = s2.ppg_buffer.length - min 5 s2.ppg_buffer.length ∧
      ∀ k, k < g.rows.length →
        g.rows.getD k [] = [round_to 3 (s2.time_buffer.getD (5 + k) 0),
          s2.ppg_buffer.getD (5 + k) 0, round_to 2 (s2.temp_buffer.getD (5 + k) 0)] := by
  have hg : s2.save_data = some
      { header := ["Time", "PPG", "Temperature"],
        rows := ((s2.time_buffer.drop (min 5 s2.ppg_buffer.length)).zip
          ((s2.ppg_buffer.drop (min 5 s2.ppg_buffer.length)).zip
            (s2.temp_buffer.drop (min 5 s2.ppg_buffer.length)))).map fun r =>
          [round_to 3 r.1, r.2.1, round_to 2 r.2.2] } := by
    simp [ArduinoSensorReader.save_data, hne2]
  have hglen : (((s2.time_buffer.drop (min 5 s2.ppg_buffer.length)).zip
      ((s2.ppg_buffer.drop (min 5 s2.ppg_buffer.length)).zip
        (s2.temp_buffer.drop (min 5 s2.ppg_buffer.length)))).map fun r =>
      ([round_to 3 r.1, r.2.1, round_to 2 r.2.2] : List ℚ)).length
      = s2.ppg_buffer.length - min 5 s2.ppg_buffer.length := by
    rw [List.length_map, List.length_zip, List.length_zip, List.length_drop,
      List.length_drop, List.length_drop]
    omega
  refine ⟨_, hg, rfl, hglen, ?_⟩
  intro k hk
  rw [hglen] at hk
  have hmin : min 5 s2.ppg_buffer.length = 5 := by omega
  have hkt : 5 + k < s2.time_buffer.length := by omega
  have hkp : 5 + k < s2.ppg_buffer.length := by omega
  have hktm : 5 + k < s2.temp_buffer.length := by omega
  have hkz : k < ((s2.time_buffer.drop (min 5 s2.ppg_buffer.length)).zip
      ((s2.ppg_buffer.drop (min 5 s2.ppg_buffer.length)).zip
        (s2.temp_buffer.drop (min 5 s2.ppg_buffer.length)))).length := by
    rw [List.length_zip, List.length_zip, List.length_drop, List.length_drop, List.length_drop]
    omega
  have hkm : k < (((s2.time_buffer.drop (min 5 s2.ppg_buffer.length)).zip
      ((s2.ppg_buffer.drop (min 5 s2.ppg_buffer.length)).zip
        (s2.temp_buffer.drop (min 5 s2.ppg_buffer.length)))).map fun r =>
      ([round_to 3 r.1, r.2.1, round_to 2 r.2.2] : List ℚ)).length := by
    rw [List.length_map]
    exact hkz
  rw [getD_lt _ _ _ hkm]
  simp only [List.getElem_map, List.getElem_zip, List.getElem_drop, hmin,
    getD_lt _ _ _ hkt, getD_lt _ _ _ hkp, getD_lt _ _ _ hktm]

/-- Claim C5 counterexample: the sensor variant's `save_data` slices the
buffers from `min(5, N)` before writing ("removing the first 5 entries", per
its own docstring), so the 6-sample state `c5_sensor` produces a file with a
single data row — not one row per retained (buffered) sample. -/
theorem C5_counterexample :
    c5_sensor.ppg_buffer.length = 6 ∧
    (c5_sensor.save_data).map (fun f => f.rows.length) = some 1 ∧
    (some 1 ≠ some (6 : ℕ)) := by with_unfolding_all decide

/-- Claim C5 (amended): for a non-empty buffer state with parallel buffers of
equal length, `save_data` writes a CSV file whose first line is the header
`Time,PPG` (`Time,PPG,Temperature` for the sensor variant), with the time
value formatted to 3 decimal places and the temperature value to 2; the PPG
variant writes exactly one row per retained sample, while the sensor variant
first discards the oldest `min(5, N)` samples and writes one row per sample
that remains. -/
theorem C5_save_data_format (s : ArduinoPPGReader) (s2 : ArduinoSensorReader)
    (hne : s.ppg_buffer ≠ []) (hlen : s.time_buffer.length = s.ppg_buffer.length)
    (hne2 : s2.ppg_buffer ≠ [])
    (hlen2 : s2.time_buffer.length = s2.ppg_buffer.length)
    (hlen2' : s2.temp_buffer.length = s2.ppg_buffer.length) :
    (∃ f, s.save_data = some f ∧ f.header = ["Time", "PPG"] ∧
      f.rows.length = s.ppg_buffer.length ∧
      ∀ k, k < f.rows.length →
        f.rows.getD k [] = [round_to 3 (s.time_buffer.getD k 0), s.ppg_buffer.getD k 0]) ∧
    (∃ g, s2.save_data = some g ∧ g.header = ["Time", "PPG", "Temperature"] ∧
      g.rows.length = s2.ppg_buffer.length - min 5 s2.ppg_buffer.length ∧
      ∀ k, k < g.rows.length →
        g.rows.getD k [] = [round_to 3 (s2.time_buffer.getD (5 + k) 0),
          s2.ppg_buffer.getD (5 + k) 0, round_to 2 (s2.temp_buffer.getD (5 + k) 0)]) :=
  ⟨ppg_save_spec s hne hlen, sensor_save_spec s2 hne2 hlen2 hlen2'⟩

/-- Witness for C5: a 2-sample PPG-variant state and the 6-sample sensor
state. -/
theorem C5_witness :
    (∃ f, c5_ppgreader.save_data = some f ∧ f.header = ["Time", "PPG"] ∧
      f.rows.length = c5_ppgreader.ppg_buffer.length ∧
      ∀ k, k < f.rows.length →
        f.rows.getD k [] = [round_to 3 (c5_ppgreader.time_buffer.getD k 0),
          c5_ppgreader.ppg_buffer.getD k 0]) ∧
    (∃ g, c5_sensor.save_data = some g ∧ g.header = ["Time", "PPG", "Temperature"] ∧
      g.rows.length = c5_sensor.ppg_buffer.length - min 5 c5_sensor.ppg_buffer.length ∧
      ∀ k, k < g.rows.length →
        g.rows.getD k [] = [round_to 3 (c5_sensor.time_buffer.getD (5 + k) 0),
          c5_sensor.ppg_buffer.getD (5 + k) 0,
          round_to 2 (c5_sensor.temp_buffer.getD (5 + k) 0)]) :=
  C5_save_data_format c5_ppgreader c5_sensor (by decide) (by decide) (by decide)
    (by decide) (by decide)

/-- Claim C6 counterexample: writing the 7-sample state `c6_sensor` with the
sensor variant's `save_data` and re-reading the file yields 2 rows, not the
same row count 7: the first `min(5, N)` samples do not survive the
round-trip. -/
theorem C6_counterexample :
    c6_sensor.ppg_buffer.length = 7 ∧
    (c6_sensor.save_data).map (fun f => (read_csv f).length) = some 2 ∧
    (some 2 ≠ some (7 : ℕ)) := by with_unfolding_all decide

/-- Claim C6 (amended): for a buffer state holding `N` samples (parallel
buffers of equal length), writing with `save_data` and re-reading the CSV
reproduces, for the PPG variant, all `N` rows, and for the sensor variant the
last `N - min(5, N)` rows; in every reproduced row the time value agrees with
the buffered one to within `1/2000` (3 decimal places), the PPG value is
exact, and the temperature agrees to within `1/200` (2 decimal places). -/
theorem C6_csv_roundtrip (s : ArduinoPPGReader) (s2 : ArduinoSensorReader)
    (hne : s.ppg_buffer ≠ []) (hlen : s.time_buffer.length = s.ppg_buffer.length)
    (hne2 : s2.ppg_buffer ≠ [])
    (hlen2 : s2.time_buffer.length = s2.ppg_buffer.length)
    (hlen2' : s2.temp_buffer.length = s2.ppg_buffer.length) :
    (∃ f, s.save_data = some f ∧ (read_csv f).length = s.ppg_buffer.length ∧
      ∀ k, k < (read_csv f).length →
        |((read_csv f).getD k []).getD 0 0 - s.time_buffer.getD k 0| ≤ 1 / 2000 ∧
        ((read_csv f).getD k []).getD 1 0 = s.ppg_buffer.getD k 0) ∧
    (∃ g, s2.save_data = some g ∧
      (read_csv g).length = s2.ppg_buffer.length - min 5 s2.ppg_buffer.length ∧
      ∀ k, k < (read_csv g).length →
        |((read_csv g).getD k []).getD 0 0 - s2.time_buffer.getD (5 + k) 0| ≤ 1 / 2000 ∧
        ((read_csv g).getD k []).getD 1 0 = s2.ppg_buffer.getD (5 + k) 0 ∧
        |((read_csv g).getD k []).getD 2 0 - s2.temp_buffer.getD (5 + k) 0| ≤ 1 / 200) := by
  obtain ⟨f, hf, _, hflen, hfrow⟩ := ppg_save_spec s hne hlen
  obtain ⟨g, hg, _, hglen, hgrow⟩ := sensor_save_spec s2 hne2 hlen2 hlen2'
  have h3 : (1 : ℚ) / (2 * 10 ^ 3) = 1 / 2000 := by norm_num
  have h2 : (1 : ℚ) / (2 * 10 ^ 2) = 1 / 200 := by norm_num
  refine ⟨⟨f, hf, hflen, ?_⟩, ⟨g, hg, hglen, ?_⟩⟩
  · intro k hk
    rw [read_csv] at hk
    rw [read_csv, hfrow k hk]
    exact ⟨by simpa [h3] using round_to_close 3 (s.time_buffer.getD k 0), rfl⟩
  · intro k hk
    rw [read_csv] at hk
    rw [read_csv, hgrow k hk]
    exact ⟨by simpa [h3] using round_to_close 3 (s2.time_buffer.getD (5 + k) 0), rfl,
      by simpa [h2] using round_to_close 2 (s2.temp_buffer.getD (5 + k) 0)⟩

/-- Witness for C6: a 1-sample PPG-variant state whose time value `1/3` is
not exactly representable in 3 decimals, and the 7-sample sensor state. -/
theorem C6_witness :
    (∃ f, c6_ppgreader.save_data = some f ∧
      (read_csv f).length = c6_ppgreader.ppg_buffer.length ∧
      ∀ k, k < (read_csv f).length →
        |((read_csv f).getD k []).getD 0 0 - c6_ppgreader.time_buffer.getD k 0| ≤ 1 / 2000 ∧
        ((read_csv f).getD k []).getD 1 0 = c6_ppgreader.ppg_buffer.getD k 0) ∧
    (∃ g, c6_sensor.save_data = some g ∧
      (read_csv g).length = c6_sensor.ppg_buffer.length - min 5 c6_sensor.ppg_buffer.length ∧
      ∀ k, k < (read_csv g).length →
        |((read_csv g).getD k []).getD 0 0 - c6_sensor.time_buffer.getD (5 + k) 0| ≤ 1 / 2000 ∧
        ((read_csv g).getD k []).getD 1 0 = c6_sensor.ppg_buffer.getD (5 + k) 0 ∧
        |((read_csv g).getD k []).getD 2 0 - c6_sensor.temp_buffer.getD (5 + k) 0| ≤ 1 / 200) :=
  C6_csv_roundtrip c6_ppgreader c6_sensor (by decide) (by decide) (by decide)
    (by decide) (by decide)

/-- Claim C7: a malformed serial line — one that is not a single numeric token
(PPG variant), or whose comma-separated field count differs from 2, or with a
non-numeric field (sensor variant) — is caught inside the loop iteration
(`ValueError` handler / field-count check), leaves every buffer exactly
unchanged, and the loop goes on to the next line; the step functions are
total, so no exception escapes the iteration. -/
theorem C7_malformed_line_no_change (s : ArduinoPPGReader) (s2 : ArduinoSensorReader)
    (now : ℚ) (line line2 : Line)
    (h1 : parse_ppg_line line = none)
    (h2 : line2.length ≠ 2 ∨ line2.getD 0 none = none ∨ line2.getD 1 none = none) :
    s.read_line now line = s ∧ (s2.read_line now line2).1 = s2 := by
  constructor
  · unfold ArduinoPPGReader.read_line
    rw [h1]
  · unfold ArduinoSensorReader.read_line
    by_cases hl : line2.length = 2
    · rw [if_pos hl]
      rcases h2 with h2 | h2 | h2
      · exact absurd hl h2
      · rw [h2]
      · rw [h2]
        cases line2.getD 0 none <;> rfl
    · rw [if_neg hl]

/-- Witness for C7: the non-numeric single-field line `[none]` against the
PPG reader and the half-numeric two-field line `[some 1, none]` against the
sensor reader; both leave the states untouched. -/
theorem C7_witness :
    c7_ppgreader.read_line 5 [none] = c7_ppgreader ∧
    (c7_sensor.read_line 5 [some 1, none]).1 = c7_sensor :=
  C7_malformed_line_no_change c7_ppgreader c7_sensor 5 [none] [some 1, none]
    (by rfl) (Or.inr (Or.inr (by rfl)))

/-- Claim C8: the parallel buffers of a reader always have equal lengths
bounded by the configured capacity; every modelled operation — a `read_data`
loop iteration, `save_data` (which leaves the state unchanged),
`clear_buffers`, and the two estimators — preserves this invariant, and
appending to a full `deque(maxlen=m)` drops the oldest element while keeping
the length at capacity. -/
theorem C8_buffer_invariant (s : ArduinoPPGReader) (s2 : ArduinoSensorReader)
    (now v : ℚ) (line line2 : Line) (m : ℕ) (l : List ℚ)
    (h1 : s.Inv) (h2 : s2.Inv) (hl : l.length = m) (hm : 1 ≤ m) :
    (s.read_line now line).Inv ∧
    ((s2.read_line now line2).1).Inv ∧
    s2.clear_buffers.Inv ∧
    (s.analyze_heart_rate_st.1.Inv ∧ s.calculate_hrv_st.1.Inv ∧
      s2.analyze_heart_rate_st.1.Inv ∧ s2.calculate_hrv_st.1.Inv) ∧
    (dequeAppend m l v).length = m ∧
    dequeAppend m l v = l.drop 1 ++ [v] := by
  obtain ⟨he1, hb1⟩ := h1
  obtain ⟨he2, he2', hb2⟩ := h2
  have hclear : ∀ u : ArduinoSensorReader, u.clear_buffers.Inv := by
    intro u
    unfold ArduinoSensorReader.clear_buffers ArduinoSensorReader.Inv
    simp
  refine ⟨?_, ?_, hclear s2, ⟨⟨he1, hb1⟩, ⟨he1, hb1⟩, ⟨he2, he2', hb2⟩, ⟨he2, he2', hb2⟩⟩, ?_, ?_⟩
  · unfold ArduinoPPGReader.read_line
    cases parse_ppg_line line with
    | none => exact ⟨he1, hb1⟩
    | some w =>
      unfold ArduinoPPGReader.Inv
      dsimp only
      simp only [dequeAppend_length]
      omega
  · unfold ArduinoSensorReader.read_line
    by_cases hl2 : line2.length = 2
    · rw [if_pos hl2]
      cases line2.getD 0 none with
      | none => cases line2.getD 1 none <;> exact ⟨he2, he2', hb2⟩
      | some p =>
        cases line2.getD 1 none with
        | none => exact ⟨he2, he2', hb2⟩
        | some t =>
          dsimp only
          split
          · exact hclear _
          · unfold ArduinoSensorReader.Inv
            dsimp only
            simp only [dequeAppend_length]
            omega
    · rw [if_neg hl2]
      exact ⟨he2, he2', hb2⟩
  · rw [dequeAppend_length]
    omega
  · exact dequeAppend_full m l v hl hm

/-- Witness for C8: concrete well-formed states, a full 3-element deque at
capacity 3, and arbitrary incoming lines. -/
theorem C8_witness :
    (c8_ppgreader.read_line 9 [some 4]).Inv ∧
    ((c8_sensor.read_line 9 [some 4, some 37]).1).Inv ∧
    c8_sensor.clear_buffers.Inv ∧
    (c8_ppgreader.analyze_heart_rate_st.1.Inv ∧ c8_ppgreader.calculate_hrv_st.1.Inv ∧
      c8_sensor.analyze_heart_rate_st.1.Inv ∧ c8_sensor.calculate_hrv_st.1.Inv) ∧
    (dequeAppend 3 [(1 : ℚ), 2, 3] 4).length = 3 ∧
    dequeAppend 3 [(1 : ℚ), 2, 3] 4 = [(1 : ℚ), 2, 3].drop 1 ++ [4] :=
  C8_buffer_invariant c8_ppgreader c8_sensor 9 4 [some 4] [some 4, some 37] 3
    [(1 : ℚ), 2, 3] (by decide) (by decide) (by decide) (by decide)

/-- Claim C9: `analyze_heart_rate` and `calculate_hrv` only read the buffers
and assign no attribute of `self`, so as state transformers they leave the
reader object — all buffers and every other field — exactly as it was,
whether they return a result or the sentinel `None`. -/
theorem C9_estimators_pure (s : ArduinoPPGReader) (s2 : ArduinoSensorReader) :
    s.analyze_heart_rate_st.1 = s ∧ s.calculate_hrv_st.1 = s ∧
    s2.analyze_heart_rate_st.1 = s2 ∧ s2.calculate_hrv_st.1 = s2 :=
  ⟨rfl, rfl, rfl, rfl⟩

/-- Claim C10: `authenticate` returns the record `DOCTORS[username]` exactly
when `username` is a key of `DOCTORS` and the hex digest of the supplied
password equals the stored password hash (the digest function is abstract
here); in every other case — unknown username or digest mismatch — it
returns `None`, so no input whose password hashes differently is granted a
record. -/
theorem C10_authenticate_iff (h : String → String) (username password : String) :
    (∀ d, authenticate h username password = some d ↔
      ((DOCTORS h).lookup username = some d ∧ d.password = h password)) ∧
    (((DOCTORS h).lookup username = none ∨
        ∃ d, (DOCTORS h).lookup username = some d ∧ d.password ≠ h password) →
      authenticate h username password = none) := by
  constructor
  · intro d
    unfold authenticate
    cases hx : (DOCTORS h).lookup username with
    | none => simp [hx]
    | some r =>
      simp only [hx]
      by_cases hpw : r.password = h password
      · rw [if_pos hpw]
        constructor
        · intro h'
          have hrd : r = d := Option.some_inj.mp h'
          subst hrd
          exact ⟨rfl, hpw⟩
        · exact fun h' => h'.1
      · rw [if_neg hpw]
        constructor
        · intro h'
          exact absurd h' (by simp)
        · rintro ⟨hd, hdpw⟩
          have hrd : r = d := Option.some_inj.mp hd
          subst hrd
          exact absurd hdpw hpw
  · rintro (hnone | ⟨d, hd, hpw⟩)
    · unfold authenticate
      rw [hnone]
    · unfold authenticate
      rw [hd]
      dsimp only
      rw [if_neg hpw]

/-- Witness for C10: with the stand-in digest `hash0`, the stored credentials
`admin / password123` are accepted and a wrong password for `admin` is
rejected. -/
theorem C10_witness :
    authenticate hash0 "admin" "password123" = some admin_doc ∧
    authenticate hash0 "admin" "wrongpass" = none :=
  ⟨((C10_authenticate_iff hash0 "admin" "password123").1 admin_doc).mpr ⟨by rfl, by rfl⟩,
    (C10_authenticate_iff hash0 "admin" "wrongpass").2
      (Or.inr ⟨admin_doc, by rfl, by decide⟩)⟩
